import Mathlib

/-!
# Verification of the unicornstudio-react scene-lifecycle core

Shallow embedding of the repository's core logic:

* `src/shared/utils.ts` — `validateScale`, `validateFPS`, `validateParameters`;
* `src/shared/hooks.ts` — the `useUnicornScene` hook: configuration
  fingerprint, concurrency/idempotence guards, scene destruction, source
  selection, the 15-second timeout race, the error sanitizer, and the
  reset-on-configuration-change effect;
* `src/react/hooks.ts` — the `useUnicornStudioScript` script-loader effect.

JavaScript numbers are modelled as exact decimals (`JSNum`: integer mantissa
with a base-10 exponent) — every numeric value this library manipulates
(`scale`, `dpi`, `fps` and the literals `0.25`, `1.0`, `15 … 120`) is a finite
decimal, and comparison/rendering are given value semantics matching
JavaScript `<=`, `===` and template-string interpolation on such values.
Promise settlement is modelled as an explicit first-event choice, and the
single-threaded event loop by splitting the async `initializeScene` body at
its unique `await` point into a synchronous phase 1 and a settlement phase 2.
-/

namespace UnicornReact

/-! ## Strings: `String.prototype.includes` and the error sanitizer -/

/-- Substring test on character lists: `containsSubAux n h = true` iff `n`
occurs contiguously inside `h` (the empty needle always occurs). -/
def containsSubAux (n : List Char) : List Char → Bool
  | [] => n.isEmpty
  | c :: rest => List.isPrefixOf n (c :: rest) || containsSubAux n rest

/-- Here `strContains haystack needle` models `haystack.includes(needle)`. -/
def strContains (haystack needle : String) : Bool :=
  containsSubAux needle.data haystack.data

/-- Error sanitizer from the catch block of `initializeScene`
(`src/shared/hooks.ts`): categories checked in order, first match wins,
otherwise the message passes through unchanged. -/
def sanitizeMessage (msg : String) : String :=
  if strContains msg "404" || strContains msg "Failed to fetch" then
    "Resource not found"
  else if strContains msg "Network" || strContains msg "network" then
    "Network error occurred"
  else if strContains msg "timeout" then
    "Loading timeout"
  else msg

/-! ## JavaScript numbers as exact decimals -/

/-- A JavaScript number that is a finite decimal: value `mant / 10 ^ exp`. -/
structure JSNum where
  mant : ℤ
  exp : ℕ
deriving Repr, DecidableEq

/-- The rational value denoted by a `JSNum`. -/
def JSNum.toRat (x : JSNum) : ℚ := (x.mant : ℚ) / (10 : ℚ) ^ x.exp

/-- An integer-valued JavaScript number. -/
def jsInt (n : ℤ) : JSNum := ⟨n, 0⟩

/-- Value-semantic `a <= b` on decimals (JavaScript `<=`). -/
def jsLe (a b : JSNum) : Bool :=
  decide (a.mant * (10 : ℤ) ^ b.exp ≤ b.mant * (10 : ℤ) ^ a.exp)

/-- Value-semantic `a === b` on decimals (JavaScript strict equality). -/
def jsEq (a b : JSNum) : Bool :=
  decide (a.mant * (10 : ℤ) ^ b.exp = b.mant * (10 : ℤ) ^ a.exp)

/-- Drop trailing `'0'` characters. -/
def stripTrailingZeros (l : List Char) : List Char :=
  ((l.reverse).dropWhile (fun c => c = '0')).reverse

/-- The fractional digits of `fr / 10 ^ e` (with `fr < 10 ^ e`), zero-padded
to width `e` and with trailing zeros removed. -/
def fracDigits (fr : ℕ) (e : ℕ) : List Char :=
  let s := (toString fr).data
  stripTrailingZeros (List.replicate (e - s.length) '0' ++ s)

/-- Models JavaScript's default number-to-string conversion (template-string
interpolation) for finite decimals: `1 ↦ "1"`, `0.1 ↦ "0.1"`, `1.5 ↦ "1.5"`,
`60 ↦ "60"`.  Value-semantic: trailing zeros never appear. -/
def jsNumToString (x : JSNum) : String :=
  let sign := if x.mant < 0 then "-" else ""
  let a : ℕ := x.mant.natAbs
  let p : ℕ := 10 ^ x.exp
  let digits := fracDigits (a % p) x.exp
  sign ++ toString (a / p) ++ (if digits.isEmpty then "" else "." ++ String.mk digits)

/-! ## Parameter validator (`src/shared/utils.ts`) -/

/-- The `VALID_FPS` list from `src/shared/constants.ts`. -/
def VALID_FPS : List JSNum := [jsInt 15, jsInt 24, jsInt 30, jsInt 60, jsInt 120]

/-- Function `validateScale`: true iff `0.25 <= scale && scale <= 1.0`. -/
def validateScale (scale : JSNum) : Bool :=
  jsLe ⟨25, 2⟩ scale && jsLe scale ⟨1, 0⟩

/-- Function `validateFPS`: `VALID_FPS.includes(fps)` (numeric equality). -/
def validateFPS (fps : JSNum) : Bool :=
  VALID_FPS.any (fun v => jsEq v fps)

/-- Function `validateParameters` from `src/shared/utils.ts`: scale checked first,
then fps; `none` when both are valid. -/
def validateParameters (scale fps : JSNum) : Option String :=
  if !validateScale scale then
    some ("Invalid scale: " ++ jsNumToString scale ++
      ". Scale must be between 0.25 and 1.0")
  else if !validateFPS fps then
    some ("Invalid fps: " ++ jsNumToString fps ++
      ". FPS must be one of: 15, 24, 30, 60, 120")
  else none

example : jsNumToString ⟨1, 1⟩ = "0.1" := by decide
example : jsNumToString (jsInt 1) = "1" := by decide
example : jsNumToString ⟨15, 1⟩ = "1.5" := by decide
example : jsNumToString ⟨50, 2⟩ = "0.5" := by decide
example : validateParameters (jsInt 1) (jsInt 60) = none := by decide
example : validateParameters ⟨1, 1⟩ (jsInt 60) =
    some "Invalid scale: 0.1. Scale must be between 0.25 and 1.0" := by decide
example : validateParameters (jsInt 1) (jsInt 45) =
    some "Invalid fps: 45. FPS must be one of: 15, 24, 30, 60, 120" := by decide
example : sanitizeMessage "Scene initialization timeout" = "Loading timeout" := by decide
example : sanitizeMessage "HTTP 404 at https://x" = "Resource not found" := by decide
example : sanitizeMessage "odd failure" = "odd failure" := by decide

/-! ### Value semantics of the decimal comparisons -/

lemma jsLe_iff (a b : JSNum) : jsLe a b = true ↔ a.toRat ≤ b.toRat := by
  unfold jsLe JSNum.toRat
  rw [decide_eq_true_eq, div_le_div_iff₀ (by positivity) (by positivity)]
  constructor
  · intro h
    exact_mod_cast h
  · intro h
    exact_mod_cast h

lemma jsEq_iff (a b : JSNum) : jsEq a b = true ↔ a.toRat = b.toRat := by
  unfold jsEq JSNum.toRat
  rw [decide_eq_true_eq, div_eq_div_iff (by positivity) (by positivity)]
  constructor
  · intro h
    exact_mod_cast h
  · intro h
    exact_mod_cast h

lemma toRat_jsInt (n : ℤ) : (jsInt n).toRat = (n : ℚ) := by
  simp [jsInt, JSNum.toRat]

/-! ## The scene lifecycle controller (`useUnicornScene`, `src/shared/hooks.ts`)

The hook's mutable cell structure: `sceneRef`, `initError` (React state),
`hasAttemptedRef`, `initializationKeyRef`, `isInitializingRef`, plus the
container element's `id` attribute, which the hook may assign.  The counters
(`addSceneCalls`, `destroyCalls`, `onLoadCount`) and the `onErrorMsgs` log are
instrumentation recording the externally observable calls. -/

/-- The inputs `useUnicornScene` reads during one invocation of
`initializeScene`: the hook parameters plus the ambient facts it consults
(`elementRef.current` non-null, `window.UnicornStudio?.addScene` present) and
the random id it would generate for an id-less container. -/
structure SceneParams where
  hasElement : Bool
  projectId : Option String
  jsonFilePath : Option String
  production : Option Bool
  scale : JSNum
  dpi : JSNum
  fps : JSNum
  lazyLoad : Bool
  altText : String
  ariaLabel : String
  isScriptLoaded : Bool
  engineAvailable : Bool
  genId : String
deriving Repr, DecidableEq

/-- JavaScript truthiness of an optional string (`undefined` and `""` are
falsy). -/
def optTruthy : Option String → Bool
  | some s => !s.isEmpty
  | none => false

/-- The controller's mutable state between event-loop turns. -/
structure CtrlState where
  scene : Option ℕ
  initError : Option String
  hasAttempted : Bool
  initKey : String
  isInitializing : Bool
  elementId : String
  addSceneCalls : ℕ
  destroyCalls : ℕ
  onLoadCount : ℕ
  onErrorMsgs : List String
deriving Repr, DecidableEq

/-- The controller state of a freshly mounted hook. -/
def freshState : CtrlState :=
  { scene := none, initError := none, hasAttempted := false, initKey := ""
    isInitializing := false, elementId := "", addSceneCalls := 0
    destroyCalls := 0, onLoadCount := 0, onErrorMsgs := [] }

/-- The configuration object handed to `UnicornStudio.addScene`. -/
structure EngineConfig where
  elementId : String
  scale : JSNum
  dpi : JSNum
  fps : JSNum
  lazyLoad : Bool
  altText : String
  ariaLabel : String
  production : Option Bool
  filePath : Option String
  projectId : Option String
deriving Repr, DecidableEq

/-- The configuration fingerprint (`currentKey` in `initializeScene` and
`newKey` in the reset effect):
`` `${projectId || ""}-${jsonFilePath || ""}-${scale}-${dpi}-${fps}-${production ? "prod" : "dev"}` ``. -/
def computeKey (p : SceneParams) : String :=
  (p.projectId.getD "") ++ "-" ++ (p.jsonFilePath.getD "") ++ "-" ++
  jsNumToString p.scale ++ "-" ++ jsNumToString p.dpi ++ "-" ++
  jsNumToString p.fps ++ "-" ++
  (if p.production.getD false then "prod" else "dev")

/-- Callback `destroyScene`: destroys the current handle if any, then —
unconditionally — clears `isInitializingRef`. -/
def destroyScene (st : CtrlState) : CtrlState :=
  let st' :=
    match st.scene with
    | some _ => { st with scene := none, destroyCalls := st.destroyCalls + 1 }
    | none => st
  { st' with isInitializing := false }

/-- The outer catch block of `initializeScene`: sanitize the message, store it
in `initError`, clear `isInitializingRef`, invoke `onError`. -/
def failWith (msg : String) (st : CtrlState) : CtrlState :=
  let m := sanitizeMessage msg
  { st with initError := some m, isInitializing := false
            onErrorMsgs := st.onErrorMsgs ++ [m] }

/-- The synchronous prefix of `initializeScene`: everything executed before
the `await Promise.race` suspension point.  Returns the updated state and,
when the run reached the `addScene` call, the configuration it passed
(`some cfg` means an attempt is now in flight). -/
def initScenePhase1 (p : SceneParams) (st : CtrlState) :
    CtrlState × Option EngineConfig :=
  if !p.hasElement || !p.isScriptLoaded
      || (validateParameters p.scale p.fps).isSome then
    (st, none)
  else if st.isInitializing then
    (st, none)
  else if st.initKey = computeKey p ∧ st.scene.isSome then
    (st, none)
  else
    let st1 := { st with initKey := computeKey p, hasAttempted := true
                         isInitializing := true }
    let st2 := destroyScene st1
    if !p.engineAvailable then
      (failWith "UnicornStudio.addScene not found" st2, none)
    else
      let elemId := if st2.elementId = "" then p.genId else st2.elementId
      let st3 := { st2 with elementId := elemId }
      let base : EngineConfig :=
        { elementId := elemId, scale := p.scale, dpi := p.dpi, fps := p.fps
          lazyLoad := p.lazyLoad, altText := p.altText
          ariaLabel := p.ariaLabel, production := p.production
          filePath := none, projectId := none }
      if optTruthy p.jsonFilePath then
        ({ st3 with addSceneCalls := st3.addSceneCalls + 1 },
          some { base with filePath := p.jsonFilePath })
      else if optTruthy p.projectId then
        ({ st3 with addSceneCalls := st3.addSceneCalls + 1 },
          some { base with projectId := p.projectId })
      else
        (failWith "No project ID or JSON file path provided" st3, none)

/-- How the `addScene` promise would settle, were it allowed to win the race. -/
inductive EngineResult where
  | resolved (handle : Option ℕ)
  | rejected (msg : String)
deriving Repr, DecidableEq

/-- The fixed timeout passed to `setTimeout` (milliseconds). -/
def TIMEOUT_MS : ℕ := 15000

/-- Models `Promise.race([addScene(...), timeoutPromise])`: the engine's settlement
(at time `engineTime`, `none` = never) wins only if it arrives strictly before
the 15-second timer; otherwise the race rejects with the timeout error and the
engine's eventual result is discarded (`none`). -/
def raceResult (engineTime : Option ℕ) (res : EngineResult) :
    Option EngineResult :=
  match engineTime with
  | some t => if t < TIMEOUT_MS then some res else none
  | none => none

/-- The continuation of `initializeScene` after the `await`: the success path,
the falsy-handle path, the rejection path and the timeout path, each ending in
the outer catch where applicable. -/
def initScenePhase2 (race : Option EngineResult) (st : CtrlState) : CtrlState :=
  match race with
  | some (.resolved (some h)) =>
      { st with scene := some h, hasAttempted := false, initError := none
                isInitializing := false, onLoadCount := st.onLoadCount + 1 }
  | some (.resolved none) =>
      failWith "Failed to initialize scene" { st with isInitializing := false }
  | some (.rejected msg) => failWith msg st
  | none => failWith "Scene initialization timeout" st

/-- One full `initializeScene` invocation that runs uninterrupted: phase 1,
and — if an attempt went in flight — phase 2 once the race settles. -/
def runAttempt (p : SceneParams) (st : CtrlState) (engineTime : Option ℕ)
    (res : EngineResult) : CtrlState :=
  match initScenePhase1 p st with
  | (st1, none) => st1
  | (st1, some _) => initScenePhase2 (raceResult engineTime res) st1

/-- The reset effect of `useUnicornScene` (deps `[projectId, jsonFilePath,
scale, dpi, fps, production]`): when the recorded key differs from the newly
computed one, clear the error, the attempted and initializing flags, and the
recorded key. -/
def resetEffect (p : SceneParams) (st : CtrlState) : CtrlState :=
  if st.initKey ≠ computeKey p then
    { st with hasAttempted := false, initError := none
              isInitializing := false, initKey := "" }
  else st

/-! ## The script loader (`useUnicornStudioScript`, `src/react/hooks.ts`) -/

/-- A `<script>` element: its `src` and its `data-loaded` attribute. -/
structure ScriptElem where
  src : String
  dataLoaded : Bool
deriving Repr, DecidableEq

/-- The document's script elements, in insertion order. -/
abbrev ScriptDom := List ScriptElem

/-- What a script-loader request did for its observer. -/
inductive LoadStatus where
  | loadedNow
  | listening
  | inserted
deriving Repr, DecidableEq

/-- The script-loader effect body for one observer: if an element for the URL
already exists, report its resolved state (`data-loaded`) or attach listeners
— never insert; otherwise create and insert exactly one element. -/
def requestScript (url : String) (dom : ScriptDom) : ScriptDom × LoadStatus :=
  match dom.find? (fun e => e.src = url) with
  | some e => if e.dataLoaded then (dom, .loadedNow) else (dom, .listening)
  | none => (dom ++ [{ src := url, dataLoaded := false }], .inserted)

/-- A sequence of sequential requests from independent observers. -/
def runRequests (urls : List String) (dom : ScriptDom) : ScriptDom :=
  urls.foldl (fun d u => (requestScript u d).1) dom

/-- Number of script elements for a given URL in the document. -/
def countScripts (url : String) (dom : ScriptDom) : ℕ :=
  (dom.filter (fun e => e.src = url)).length

/-! ## Helper lemmas about the controller -/

lemma destroyScene_scene (st : CtrlState) : (destroyScene st).scene = none := by
  unfold destroyScene
  cases h : st.scene <;> simp [h]

lemma destroyScene_addSceneCalls (st : CtrlState) :
    (destroyScene st).addSceneCalls = st.addSceneCalls := by
  unfold destroyScene
  cases h : st.scene <;> simp [h]

lemma failWith_scene (msg : String) (st : CtrlState) :
    (failWith msg st).scene = st.scene := rfl

lemma failWith_addSceneCalls (msg : String) (st : CtrlState) :
    (failWith msg st).addSceneCalls = st.addSceneCalls := rfl

/-- The idempotence guard: with a live handle and an unchanged fingerprint,
`initializeScene` returns before mutating anything or calling the engine. -/
lemma initScenePhase1_skip_of_live (p : SceneParams) (st : CtrlState) (s : ℕ)
    (hscene : st.scene = some s) (hkey : st.initKey = computeKey p) :
    initScenePhase1 p st = (st, none) := by
  unfold initScenePhase1
  split_ifs with h1 h2 h3 <;> try rfl
  all_goals exact absurd ⟨hkey, by simp [hscene]⟩ h3

/-- Whenever phase 1 leaves an attempt in flight, the previous handle has
already been destroyed: the stored scene is `none` at the suspension point. -/
lemma initScenePhase1_pending_scene_none (p : SceneParams) (st : CtrlState)
    (cfg : EngineConfig) (h : (initScenePhase1 p st).2 = some cfg) :
    (initScenePhase1 p st).1.scene = none := by
  unfold initScenePhase1 at h ⊢
  split_ifs at h ⊢ <;> simp_all [destroyScene_scene, failWith_scene]

/-! ## Helper lemmas about the validators -/

lemma validateScale_iff (s : JSNum) :
    validateScale s = true ↔ (0.25 : ℚ) ≤ s.toRat ∧ s.toRat ≤ 1 := by
  have h1 : (⟨25, 2⟩ : JSNum).toRat = (0.25 : ℚ) := by
    norm_num [JSNum.toRat]
  have h2 : (⟨1, 0⟩ : JSNum).toRat = (1 : ℚ) := by
    norm_num [JSNum.toRat]
  unfold validateScale
  rw [Bool.and_eq_true, jsLe_iff, jsLe_iff, h1, h2]

lemma validateFPS_iff (f : JSNum) :
    validateFPS f = true ↔
      (f.toRat = 15 ∨ f.toRat = 24 ∨ f.toRat = 30 ∨ f.toRat = 60 ∨
        f.toRat = 120) := by
  unfold validateFPS VALID_FPS
  simp only [List.any_cons, List.any_nil, Bool.or_eq_true, Bool.false_eq_true,
    or_false, jsEq_iff, toRat_jsInt]
  push_cast
  constructor
  · rintro (h | h | h | h | h) <;> simp [h.symm]
  · rintro (h | h | h | h | h) <;> simp [h]

lemma validateParameters_none_iff (s f : JSNum) :
    validateParameters s f = none ↔
      (validateScale s = true ∧ validateFPS f = true) := by
  unfold validateParameters
  cases hs : validateScale s <;> cases hf : validateFPS f <;> simp

/-! ## Helper lemmas about the script loader -/

lemma requestScript_existing (url : String) (dom : ScriptDom) (e : ScriptElem)
    (h : dom.find? (fun el => el.src = url) = some e) :
    requestScript url dom =
      (dom, if e.dataLoaded then LoadStatus.loadedNow else LoadStatus.listening) := by
  unfold requestScript
  rw [h]
  cases hd : e.dataLoaded <;> simp [hd]

lemma countScripts_requestScript (u url : String) (dom : ScriptDom)
    (h : countScripts u dom ≤ 1) :
    countScripts u (requestScript url dom).1 ≤ 1 := by
  unfold requestScript
  cases hf : dom.find? (fun el => el.src = url) with
  | some e => cases hd : e.dataLoaded <;> simpa [hd] using h
  | none =>
    by_cases hu : u = url
    · subst hu
      have h0 : countScripts u dom = 0 := by
        unfold countScripts
        rw [List.length_eq_zero, List.filter_eq_nil_iff]
        intro a ha
        simpa using List.find?_eq_none.mp hf a ha
      unfold countScripts at h0 ⊢
      simp [List.filter_append, h0]
    · unfold countScripts at h ⊢
      simpa [List.filter_append, Ne.symm hu] using h

lemma countScripts_runRequests (urls : List String) (dom : ScriptDom)
    (h : ∀ u, countScripts u dom ≤ 1) (u : String) :
    countScripts u (runRequests urls dom) ≤ 1 := by
  induction urls generalizing dom with
  | nil => exact h u
  | cons x xs ih =>
    simp only [runRequests, List.foldl_cons]
    exact ih ((requestScript x dom).1)
      (fun v => countScripts_requestScript v x dom (h v))

/-! ## Concrete fixtures for witnesses and counterexamples -/

/-- A valid configuration: element mounted, script loaded, engine available,
`projectId` set, `scale = 1`, `dpi = 1.5`, `fps = 60`. -/
def sampleParams : SceneParams :=
  { hasElement := true, projectId := some "proj", jsonFilePath := none
    production := some true, scale := jsInt 1, dpi := ⟨15, 1⟩, fps := jsInt 60
    lazyLoad := true, altText := "alt", ariaLabel := "aria"
    isScriptLoaded := true, engineAvailable := true, genId := "unicorn-abc" }

/-- State after the first back-to-back `initializeScene` request: suspended at
the `await`, attempt in flight. -/
def afterFirstCall : CtrlState × Option EngineConfig :=
  initScenePhase1 sampleParams freshState

/-- State after the second back-to-back request, issued at the suspension
point of the first, before the first settles. -/
def afterSecondCall : CtrlState × Option EngineConfig :=
  initScenePhase1 sampleParams afterFirstCall.1

/-- The configuration the first request passes to `addScene`. -/
def samplePendingCfg : EngineConfig :=
  { elementId := "unicorn-abc", scale := jsInt 1, dpi := ⟨15, 1⟩
    fps := jsInt 60, lazyLoad := true, altText := "alt", ariaLabel := "aria"
    production := some true, filePath := none, projectId := some "proj" }

/-- Controller state after an attempt with `sampleParams` whose `addScene`
call rejected with "boom" (settling 1 s in, well before the timeout). -/
def failedState : CtrlState :=
  runAttempt sampleParams freshState (some 1000) (.rejected "boom")

/-- Controller state holding a live scene handle for `sampleParams`. -/
def liveState : CtrlState :=
  { freshState with scene := some 5, initKey := computeKey sampleParams }

/-- Same structural identity as `sampleParams`, different presentation fields
(`altText`, `ariaLabel`, `lazyLoad`, `paused` is not read here at all). -/
def alteredParams : SceneParams :=
  { sampleParams with altText := "other", ariaLabel := "aria2"
                      lazyLoad := false }

/-- Same as `sampleParams` except for `projectId`: a fingerprint change. -/
def changedParams : SceneParams :=
  { sampleParams with projectId := some "proj2" }

/-- Configuration with both `jsonFilePath` and `projectId` present. -/
def bothSourcesParams : SceneParams :=
  { sampleParams with jsonFilePath := some "scene.json" }

/-- Configuration with neither `jsonFilePath` nor `projectId` present. -/
def noSourceParams : SceneParams :=
  { sampleParams with projectId := none }

/-! ## The claims -/

/-- C1: the claim says at most one initialization attempt is in flight per
controller and that two back-to-back requests issued before the first settles
yield exactly one `addScene` invocation.  The code violates this:
`initializeScene` sets `isInitializingRef.current = true` and then immediately
calls `destroyScene`, which unconditionally resets the flag to `false`, so at
the `await Promise.race` suspension point the guard is already open.  A second
request issued there passes every guard (the idempotence guard fails because
the scene was just destroyed) and `addScene` is invoked a second time: after
two back-to-back requests both are in flight and `addSceneCalls = 2`. -/
theorem two_requests_before_settle_call_addScene_twice :
    afterFirstCall.2.isSome = true ∧ afterSecondCall.2.isSome = true ∧
    afterSecondCall.1.addSceneCalls = 2 := by decide

/-- C2: the claim says `isInitializing` stays true for the whole duration of
an in-flight attempt.  The code violates this: with a valid configuration the
first request is still in flight (suspended at the `await`), yet
`isInitializingRef.current` is already `false`, because `destroyScene` —
invoked synchronously right after the flag was set — unconditionally clears
it.  (The second half of the claim, false by settlement time, does hold:
`failedState`/success both end with the flag false.) -/
theorem flag_false_during_inflight_attempt :
    afterFirstCall.2.isSome = true ∧
    afterFirstCall.1.isInitializing = false ∧
    failedState.isInitializing = false := by decide

/-- C3: when the fixed 15-second timer elapses before the engine settles, the
attempt fails with the sanitized message "Loading timeout" (stored in the
error state and passed to `onError`), and whatever the engine's late result
`res` would have been, it is never stored: the current scene handle is `none`
after the attempt, for every possible late result. -/
theorem timeout_reports_loading_timeout_and_discards_late_result
    (p : SceneParams) (st : CtrlState) (cfg : EngineConfig)
    (hpending : (initScenePhase1 p st).2 = some cfg)
    (t : Option ℕ) (ht : ∀ t0, t = some t0 → TIMEOUT_MS ≤ t0)
    (res : EngineResult) :
    (runAttempt p st t res).initError = some "Loading timeout" ∧
    (runAttempt p st t res).scene = none ∧
    "Loading timeout" ∈ (runAttempt p st t res).onErrorMsgs := by
  have hrace : raceResult t res = none := by
    cases t with
    | none => rfl
    | some t0 =>
      have h15 := ht t0 rfl
      simp only [raceResult, if_neg (by omega : ¬ t0 < TIMEOUT_MS)]
  have hscene := initScenePhase1_pending_scene_none p st cfg hpending
  have hsan : sanitizeMessage "Scene initialization timeout" =
      "Loading timeout" := by decide
  rcases hps : initScenePhase1 p st with ⟨st1, oc⟩
  rw [hps] at hpending hscene
  dsimp only at hpending hscene
  subst hpending
  have hrun : runAttempt p st t res =
      initScenePhase2 (raceResult t res) st1 := by
    unfold runAttempt
    rw [hps]
  rw [hrun, hrace]
  simp [initScenePhase2, failWith, hsan, hscene]

/-- C3 witness: engine would resolve with handle 7 at t = 20 s, after the
15-second timer; the controller reports "Loading timeout" and never stores
handle 7. -/
theorem timeout_witness :
    (runAttempt sampleParams freshState (some 20000)
        (.resolved (some 7))).initError = some "Loading timeout" ∧
    (runAttempt sampleParams freshState (some 20000)
        (.resolved (some 7))).scene = none ∧
    "Loading timeout" ∈ (runAttempt sampleParams freshState (some 20000)
        (.resolved (some 7))).onErrorMsgs :=
  timeout_reports_loading_timeout_and_discards_late_result sampleParams
    freshState samplePendingCfg (by decide) (some 20000)
    (fun t0 h => by injection h with h2; subst h2; decide)
    (.resolved (some 7))

/-- C4: the fingerprint is computed from `(projectId, jsonFilePath, scale,
dpi, fps, production)` only, so two configurations agreeing on those six
fields have equal fingerprints; and a controller holding a live scene under
that fingerprint neither resets (the reset effect is a no-op) nor
re-initializes (phase 1 returns with no state change and no engine call) when
presented the second configuration. -/
theorem fingerprint_ignores_presentation_fields
    (p q : SceneParams) (st : CtrlState) (s : ℕ)
    (hproj : q.projectId = p.projectId)
    (hjson : q.jsonFilePath = p.jsonFilePath)
    (hscale : q.scale = p.scale) (hdpi : q.dpi = p.dpi) (hfps : q.fps = p.fps)
    (hprod : q.production = p.production)
    (hscene : st.scene = some s) (hkey : st.initKey = computeKey p) :
    computeKey q = computeKey p ∧
    initScenePhase1 q st = (st, none) ∧
    resetEffect q st = st := by
  have hk : computeKey q = computeKey p := by
    simp [computeKey, hproj, hjson, hscale, hdpi, hfps, hprod]
  refine ⟨hk, ?_, ?_⟩
  · exact initScenePhase1_skip_of_live q st s hscene (by rw [hkey, hk])
  · unfold resetEffect
    rw [if_neg]
    simp [hkey, hk]

/-- C4 witness: `alteredParams` differs from `sampleParams` exactly in
`altText`, `ariaLabel` and `lazyLoad`; a controller with a live scene for
`sampleParams` skips. -/
theorem fingerprint_witness :
    computeKey alteredParams = computeKey sampleParams ∧
    initScenePhase1 alteredParams liveState = (liveState, none) ∧
    resetEffect alteredParams liveState = liveState :=
  fingerprint_ignores_presentation_fields sampleParams alteredParams liveState
    5 rfl rfl rfl rfl rfl rfl rfl rfl

/-- C5 counterexample: after an attempt with `sampleParams` failed ("boom"),
a repeated initialization request with the same fingerprint and the script
still loaded passes every guard (the idempotence guard requires a live
handle, which a failed attempt does not leave) and performs a new `addScene`
call — `addSceneCalls` goes from 1 to 2 — contradicting the claim that no
new `addScene` call occurs. -/
theorem failed_attempt_repeat_calls_addScene_again :
    failedState.initError = some "boom" ∧
    failedState.scene = none ∧
    failedState.initKey = computeKey sampleParams ∧
    failedState.addSceneCalls = 1 ∧
    sampleParams.isScriptLoaded = true ∧
    (initScenePhase1 sampleParams failedState).2.isSome = true ∧
    (initScenePhase1 sampleParams failedState).1.addSceneCalls = 2 := by
  decide

/-- C5 (amended): a repeated initialization request with an unchanged
fingerprint performs no new `addScene` call only when a live scene handle
exists (i.e. after a successful attempt); after a failed attempt — no live
handle — a repeated request with the same fingerprint and unchanged script
state does perform a new `addScene` call. -/
theorem same_fingerprint_repeat_skips_only_with_live_handle
    (p : SceneParams) (st : CtrlState) (s : ℕ)
    (hscene : st.scene = some s) (hkey : st.initKey = computeKey p) :
    ((initScenePhase1 p st).1.addSceneCalls = st.addSceneCalls ∧
      (initScenePhase1 p st).2 = none) ∧
    (initScenePhase1 sampleParams failedState).1.addSceneCalls =
      failedState.addSceneCalls + 1 := by
  refine ⟨?_, by decide⟩
  rw [initScenePhase1_skip_of_live p st s hscene hkey]
  exact ⟨rfl, rfl⟩

/-- C5 witness: with a live handle for `sampleParams`, a repeated request is
a pure skip. -/
theorem same_fingerprint_repeat_witness :
    ((initScenePhase1 sampleParams liveState).1.addSceneCalls =
        liveState.addSceneCalls ∧
      (initScenePhase1 sampleParams liveState).2 = none) ∧
    (initScenePhase1 sampleParams failedState).1.addSceneCalls =
      failedState.addSceneCalls + 1 :=
  same_fingerprint_repeat_skips_only_with_live_handle sampleParams liveState
    5 rfl rfl

/-- C6: the sanitizer checks categories in order with first match winning:
"404"/"Failed to fetch" → "Resource not found"; else "Network"/"network" →
"Network error occurred"; else "timeout" → "Loading timeout"; else the
message passes through unchanged. -/
theorem sanitizeMessage_categories_in_order (m : String) :
    ((strContains m "404" || strContains m "Failed to fetch") = true →
      sanitizeMessage m = "Resource not found") ∧
    ((strContains m "404" || strContains m "Failed to fetch") = false →
      (strContains m "Network" || strContains m "network") = true →
      sanitizeMessage m = "Network error occurred") ∧
    ((strContains m "404" || strContains m "Failed to fetch") = false →
      (strContains m "Network" || strContains m "network") = false →
      strContains m "timeout" = true →
      sanitizeMessage m = "Loading timeout") ∧
    ((strContains m "404" || strContains m "Failed to fetch") = false →
      (strContains m "Network" || strContains m "network") = false →
      strContains m "timeout" = false →
      sanitizeMessage m = m) := by
  refine ⟨fun h1 => ?_, fun h1 h2 => ?_, fun h1 h2 h3 => ?_,
    fun h1 h2 h3 => ?_⟩ <;> simp [sanitizeMessage, *]

/-- C6 witness: a message mentioning both "Network" and "timeout" falls into
the earlier "Network" category. -/
theorem sanitize_witness :
    sanitizeMessage "Network timeout while fetching" =
      "Network error occurred" :=
  (sanitizeMessage_categories_in_order "Network timeout while fetching").2.1
    (by decide) (by decide)

/-- C7: exactly one source field is attached to the engine configuration —
`filePath` whenever `jsonFilePath` is truthy (`projectId` omitted even when
present); `projectId` only when `jsonFilePath` is falsy; and when neither is
truthy the attempt fails with the configuration error "No project ID or JSON
file path provided" without `addScene` ever being called. -/
theorem source_selection_exclusive (p : SceneParams) (st : CtrlState)
    (hguard : (!p.hasElement || !p.isScriptLoaded
      || (validateParameters p.scale p.fps).isSome) = false)
    (hinit : st.isInitializing = false)
    (hskip : ¬(st.initKey = computeKey p ∧ st.scene.isSome = true))
    (heng : p.engineAvailable = true) :
    (optTruthy p.jsonFilePath = true →
      ∃ cfg, (initScenePhase1 p st).2 = some cfg ∧
        cfg.filePath = p.jsonFilePath ∧ cfg.projectId = none) ∧
    (optTruthy p.jsonFilePath = false → optTruthy p.projectId = true →
      ∃ cfg, (initScenePhase1 p st).2 = some cfg ∧
        cfg.projectId = p.projectId ∧ cfg.filePath = none) ∧
    (optTruthy p.jsonFilePath = false → optTruthy p.projectId = false →
      (initScenePhase1 p st).2 = none ∧
      (initScenePhase1 p st).1.addSceneCalls = st.addSceneCalls ∧
      (initScenePhase1 p st).1.initError =
        some "No project ID or JSON file path provided") := by
  have hsan : sanitizeMessage "No project ID or JSON file path provided" =
      "No project ID or JSON file path provided" := by decide
  refine ⟨fun hj => ?_, fun hj hp => ?_, fun hj hp => ?_⟩ <;>
    simp [initScenePhase1, hguard, hinit, hskip, heng, hj,
      destroyScene_addSceneCalls, failWith, hsan, *]

/-- C7 witness: with both sources present, `filePath` wins and `projectId` is
omitted; with neither, the configuration error is surfaced and `addScene` is
never called. -/
theorem source_selection_witness :
    (∃ cfg, (initScenePhase1 bothSourcesParams freshState).2 = some cfg ∧
      cfg.filePath = bothSourcesParams.jsonFilePath ∧ cfg.projectId = none) ∧
    ((initScenePhase1 noSourceParams freshState).2 = none ∧
      (initScenePhase1 noSourceParams freshState).1.addSceneCalls =
        freshState.addSceneCalls ∧
      (initScenePhase1 noSourceParams freshState).1.initError =
        some "No project ID or JSON file path provided") :=
  ⟨(source_selection_exclusive bothSourcesParams freshState (by decide)
      (by decide) (by decide) (by decide)).1 (by decide),
    (source_selection_exclusive noSourceParams freshState (by decide)
      (by decide) (by decide) (by decide)).2.2 (by decide) (by decide)⟩

/-- C8: `validateParameters` returns `none` exactly when `0.25 ≤ scale ≤ 1`
and fps is one of {15, 24, 30, 60, 120}; scale is checked before fps; the
concrete messages for `(0.1, 60)` and `(1, 45)` name the offending value and
its valid domain; and `(1, 60)` is valid. -/
theorem validateParameters_spec :
    (∀ s f : JSNum, validateParameters s f = none ↔
      ((0.25 : ℚ) ≤ s.toRat ∧ s.toRat ≤ 1 ∧
        (f.toRat = 15 ∨ f.toRat = 24 ∨ f.toRat = 30 ∨ f.toRat = 60 ∨
          f.toRat = 120))) ∧
    (∀ s f : JSNum, ¬ ((0.25 : ℚ) ≤ s.toRat ∧ s.toRat ≤ 1) →
      validateParameters s f = some ("Invalid scale: " ++ jsNumToString s ++
        ". Scale must be between 0.25 and 1.0")) ∧
    (validateParameters ⟨1, 1⟩ (jsInt 60) =
        some "Invalid scale: 0.1. Scale must be between 0.25 and 1.0" ∧
      strContains "Invalid scale: 0.1. Scale must be between 0.25 and 1.0"
        "0.1" = true ∧
      strContains "Invalid scale: 0.1. Scale must be between 0.25 and 1.0"
        "0.25 and 1.0" = true) ∧
    (validateParameters (jsInt 1) (jsInt 45) =
        some "Invalid fps: 45. FPS must be one of: 15, 24, 30, 60, 120" ∧
      strContains "Invalid fps: 45. FPS must be one of: 15, 24, 30, 60, 120"
        "45" = true ∧
      strContains "Invalid fps: 45. FPS must be one of: 15, 24, 30, 60, 120"
        "15, 24, 30, 60, 120" = true) ∧
    validateParameters (jsInt 1) (jsInt 60) = none := by
  refine ⟨fun s f => ?_, fun s f hs => ?_, by decide, by decide, by decide⟩
  · rw [validateParameters_none_iff, validateScale_iff, validateFPS_iff]
    tauto
  · have hfalse : validateScale s = false := by
      cases h : validateScale s with
      | false => rfl
      | true => exact absurd ((validateScale_iff s).mp h) hs
    unfold validateParameters
    rw [hfalse]
    rfl

/-- C8 witness: the valid pair `(1, 60)`. -/
theorem validateParameters_witness :
    validateParameters (jsInt 1) (jsInt 60) = none :=
  validateParameters_spec.2.2.2.2

/-- C9: a request for a URL whose script element already exists reads its
resolved state or attaches listeners and never inserts (the document is
unchanged); and after any sequence of sequential requests starting from a
document with no script elements, at most one element per URL exists. -/
theorem script_loader_at_most_one_element (url : String) (dom : ScriptDom)
    (e : ScriptElem) (hfind : dom.find? (fun el => el.src = url) = some e)
    (urls : List String) :
    requestScript url dom =
      (dom, if e.dataLoaded then LoadStatus.loadedNow
            else LoadStatus.listening) ∧
    (∀ u, countScripts u (runRequests urls []) ≤ 1) := by
  refine ⟨requestScript_existing url dom e hfind, fun u => ?_⟩
  exact countScripts_runRequests urls []
    (fun v => by simp [countScripts]) u

/-- C9 witness: two observers requesting the same URL: one element total. -/
theorem script_loader_witness :
    requestScript "https://cdn/u.js" [⟨"https://cdn/u.js", true⟩] =
      ([⟨"https://cdn/u.js", true⟩], LoadStatus.loadedNow) ∧
    countScripts "https://cdn/u.js"
      (runRequests ["https://cdn/u.js", "https://cdn/u.js"] []) ≤ 1 :=
  ⟨by
    have h := (script_loader_at_most_one_element "https://cdn/u.js"
      [⟨"https://cdn/u.js", true⟩] ⟨"https://cdn/u.js", true⟩ (by decide)
      ["https://cdn/u.js", "https://cdn/u.js"]).1
    simpa using h,
   (script_loader_at_most_one_element "https://cdn/u.js"
      [⟨"https://cdn/u.js", true⟩] ⟨"https://cdn/u.js", true⟩ (by decide)
      ["https://cdn/u.js", "https://cdn/u.js"]).2 "https://cdn/u.js"⟩

/-- C10: whenever the newly computed fingerprint differs from the recorded
one, the reset effect clears the exposed error to `none`, resets the
attempted and initializing flags, and empties the recorded key — leaving the
scene handle and the `addScene` call count untouched, i.e. before and
independently of any new attempt. -/
theorem reset_clears_error_on_fingerprint_change
    (p : SceneParams) (st : CtrlState) (h : st.initKey ≠ computeKey p) :
    (resetEffect p st).initError = none ∧
    (resetEffect p st).hasAttempted = false ∧
    (resetEffect p st).isInitializing = false ∧
    (resetEffect p st).initKey = "" ∧
    (resetEffect p st).scene = st.scene ∧
    (resetEffect p st).addSceneCalls = st.addSceneCalls := by
  unfold resetEffect
  rw [if_pos h]
  exact ⟨rfl, rfl, rfl, rfl, rfl, rfl⟩

/-- C10 witness: after the failed attempt surfaced "boom", merely changing
`projectId` clears the error before any new attempt. -/
theorem reset_witness :
    (resetEffect changedParams failedState).initError = none ∧
    (resetEffect changedParams failedState).hasAttempted = false ∧
    (resetEffect changedParams failedState).isInitializing = false ∧
    (resetEffect changedParams failedState).initKey = "" ∧
    (resetEffect changedParams failedState).scene = failedState.scene ∧
    (resetEffect changedParams failedState).addSceneCalls =
      failedState.addSceneCalls :=
  reset_clears_error_on_fingerprint_change changedParams failedState
    (by decide)

end UnicornReact
